import Mathlib

/-!
# Verification of `analyze.py` (vhs/laser-log-analyze)

A shallow embedding of the laser-cutter log analyzer `src/analyze.py`.

Modelling conventions:
* Python exceptions are modelled with `Except PyError`; `AttributeError`
  (from calling `.groupdict()` on `None`) and `ValueError` (from
  `datetime.strptime` failure or the explicit `raise ValueError`) are the
  two exception kinds the analyzed code can raise.
* `datetime` values are modelled as `Int` seconds since the Unix epoch
  (the parsed format has second resolution); `timedelta` subtraction and
  comparison then coincide with `Int` arithmetic.
* Python floats are modelled as exact rationals `ℚ`; the claims proved
  here are structural (division by a constant, zero propagation,
  additivity) and do not depend on floating-point rounding.  Likewise
  `timedelta * float` (which Python rounds to whole microseconds) is
  modelled by exact `ℚ` multiplication.
* Python `dict` / `defaultdict` are modelled as insertion-ordered
  association lists (`List (κ × ν)`): update-in-place for an existing
  key, append for a new key — exactly the iteration-order behaviour of
  CPython dicts that `print_summary` relies on.
* Lines are modelled with the trailing `'\n'` (produced by `for line in
  fh`) stripped.  `RE_LINE`'s `$` keeps the newline out of the `message`
  group, so this is behaviour-preserving except in the degenerate case
  where the newline itself serves as the final `\s` separator (an empty
  message), which no claim concerns.  Interior newlines cannot occur in
  a line produced by file iteration.
* The InfluxDB client is external; it is modelled as a parameter
  `query : Int → Int → Option ℚ` where `none` models the
  `StopIteration` ("no data") outcome of `next(self.client.query(q).get_points())`
  and `some m` models a returned mean.
-/

/-- The two Python exception kinds the analyzed code can raise:
`AttributeError` (from `None.groupdict()`) and `ValueError`. -/
inductive PyError where
  | attributeError
  | valueError
deriving DecidableEq, Repr

deriving instance DecidableEq for Except

/-- Python `\s` for the ASCII whitespace characters (the only ones that
can occur in these log lines). -/
def pyIsSpace (c : Char) : Bool :=
  c = ' ' || c = '\t' || c = '\n' || c = '\r' || c = '\x0b' || c = '\x0c'

def isDigitC (c : Char) : Bool :=
  '0' ≤ c && c ≤ '9'

def digitVal (c : Char) : Nat :=
  c.toNat - '0'.toNat

/-- Does `pat` occur as a contiguous run somewhere in the list? -/
def hasSubstr (pat : List Char) : List Char → Bool
  | [] => pat.isPrefixOf []
  | c :: rest => pat.isPrefixOf (c :: rest) || hasSubstr pat rest

/-- Python `sub in s` substring test. -/
def strContains (s sub : String) : Bool :=
  hasSubstr sub.toList s.toList

/-! ## RE_LINE: `^(?P<time>.* GMT)\s(?P<key>\S+)\s(?P<message>.*)$`

The `time` group is greedy, so it extends to the *last* occurrence of
`" GMT"` for which the remainder of the line still matches
`\s\S+\s.*`. -/

/-- After the (greedy) time group: match `\s(\S+)\s(.*)`, returning the
`key` and `message` groups.  `\S+` is greedy and the following `\s`
can only match the character immediately after the maximal non-space
run, so the decomposition is unique. -/
def reLineTail (cs : List Char) : Option (List Char × List Char) :=
  match cs with
  | [] => none
  | c :: rest =>
    if pyIsSpace c then
      let key := rest.takeWhile (fun d => !(pyIsSpace d))
      if key.isEmpty then none
      else
        match rest.dropWhile (fun d => !(pyIsSpace d)) with
        | [] => none
        | _ :: msg => some (key, msg)
    else none

def endsGMT (t : List Char) : Bool :=
  [' ', 'G', 'M', 'T'].isSuffixOf t

/-- Try the splits of the line into `time ++ rest` with `time` ending in
`" GMT"`, longest `time` first (greedy `.*`). -/
def reLineAux (cs : List Char) : Nat → Option (List Char × List Char × List Char)
  | 0 => none
  | i + 1 =>
    let t := cs.take (i + 1)
    if endsGMT t then
      match reLineTail (cs.drop (i + 1)) with
      | some (k, m) => some (t, k, m)
      | none => reLineAux cs i
    else reLineAux cs i

/-- `RE_LINE.match(line)`: `none` models a failed match (`r = None`). -/
def reLineMatch (cs : List Char) : Option (List Char × List Char × List Char) :=
  reLineAux cs cs.length

/-! ## `datetime.strptime(_, '%a, %d %b %Y %H:%M:%S %Z')`

Modelled for this one format string: abbreviated (case-insensitive)
weekday and month names, 1–2 digit day/hour/minute/second with the
ranges Python accepts for a `datetime` (second 60/61 pass `%S` but are
rejected by the `datetime` constructor, so they are rejected here too),
exactly four year digits, literal `','`/`':'`, format-string spaces
matching `\s+`, `%Z` accepting GMT/UTC, and "unconverted data remains"
rejected.  The result is converted to seconds since the Unix epoch by
standard civil-calendar arithmetic, after validating the day against
the month length (as the `datetime` constructor does). -/

def take3Lower (cs : List Char) : Option (String × List Char) :=
  match cs with
  | a :: b :: c :: rest => some (⟨[a.toLower, b.toLower, c.toLower]⟩, rest)
  | _ => none

def expectChar (c : Char) (cs : List Char) : Option (List Char) :=
  match cs with
  | d :: rest => if d = c then some rest else none
  | [] => none

/-- A format-string space: `\s+` (one or more whitespace characters). -/
def skipSpaces1 (cs : List Char) : Option (List Char) :=
  match cs with
  | c :: rest => if pyIsSpace c then some (rest.dropWhile pyIsSpace) else none
  | [] => none

/-- One or two decimal digits, greedily. -/
def num2 (cs : List Char) : Option (Nat × List Char) :=
  match cs with
  | c1 :: c2 :: rest =>
    if isDigitC c1 then
      if isDigitC c2 then some (digitVal c1 * 10 + digitVal c2, rest)
      else some (digitVal c1, c2 :: rest)
    else none
  | [c1] => if isDigitC c1 then some (digitVal c1, []) else none
  | [] => none

/-- Exactly four decimal digits (`%Y`). -/
def num4 (cs : List Char) : Option (Nat × List Char) :=
  match cs with
  | c1 :: c2 :: c3 :: c4 :: rest =>
    if isDigitC c1 && isDigitC c2 && isDigitC c3 && isDigitC c4 then
      some (((digitVal c1 * 10 + digitVal c2) * 10 + digitVal c3) * 10 + digitVal c4, rest)
    else none
  | _ => none

def weekdayAbbrevs : List String :=
  ["mon", "tue", "wed", "thu", "fri", "sat", "sun"]

def monthNum (s : String) : Option Nat :=
  match ["jan", "feb", "mar", "apr", "may", "jun",
         "jul", "aug", "sep", "oct", "nov", "dec"].indexOf? s with
  | some i => some (i + 1)
  | none => none

def isLeapYear (y : Nat) : Bool :=
  y % 4 = 0 && (y % 100 ≠ 0 || y % 400 = 0)

def daysInMonth (y m : Nat) : Nat :=
  if m = 2 then (if isLeapYear y then 29 else 28)
  else if m = 4 || m = 6 || m = 9 || m = 11 then 30
  else 31

/-- Days from 1970-01-01 of the civil date `y-m-d` (valid for `y ≥ 1`),
by the standard era/year-of-era calculation. -/
def daysFromCivil (y m d : Nat) : Int :=
  let y' := if m ≤ 2 then y - 1 else y
  let era := y' / 400
  let yoe := y' % 400
  let doy := (153 * (if m > 2 then m - 3 else m + 9) + 2) / 5 + (d - 1)
  let doe := yoe * 365 + yoe / 4 - yoe / 100 + doy
  (((era * 146097 + doe : Nat)) : Int) - 719468

/-- `%a, %d`: abbreviated weekday, literal comma, `\s+`, day of month. -/
def strpWdDay (cs : List Char) : Option (Nat × List Char) := do
  let (wd, r1) ← take3Lower cs
  if !(weekdayAbbrevs.contains wd) then none else
  do
  let r2 ← expectChar ',' r1
  let r3 ← skipSpaces1 r2
  let (d, r4) ← num2 r3
  if d < 1 || 31 < d then none else some (d, r4)

/-- ` %b %Y`: `\s+`, abbreviated month, `\s+`, four-digit year. -/
def strpMonYear (cs : List Char) : Option (Nat × Nat × List Char) := do
  let r5 ← skipSpaces1 cs
  let (mon, r6) ← take3Lower r5
  let m ← monthNum mon
  let r7 ← skipSpaces1 r6
  let (y, r8) ← num4 r7
  if y < 1 then none else some (m, y, r8)

/-- ` %H:%M:%S`: `\s+`, then the time of day with the ranges a
`datetime` accepts. -/
def strpHms (cs : List Char) : Option (Nat × List Char) := do
  let r9 ← skipSpaces1 cs
  let (hh, r10) ← num2 r9
  if 23 < hh then none else
  do
  let r11 ← expectChar ':' r10
  let (mi, r12) ← num2 r11
  if 59 < mi then none else
  do
  let r13 ← expectChar ':' r12
  let (ss, r14) ← num2 r13
  if 59 < ss then none else some (hh * 3600 + mi * 60 + ss, r14)

/-- ` %Z` and end of input: `\s+`, a GMT/UTC marker, nothing left over
("unconverted data remains" is a `ValueError`). -/
def strpTzEnd (cs : List Char) : Option Unit := do
  let r15 ← skipSpaces1 cs
  let (tz, r16) ← take3Lower r15
  if !(tz = "gmt" || tz = "utc") then none else
  if !r16.isEmpty then none else some ()

/-- `datetime.strptime(s, '%a, %d %b %Y %H:%M:%S %Z')`, as seconds since
the Unix epoch; `none` models the `ValueError` raised on failure.
The day is validated against the month length, as the `datetime`
constructor does. -/
def strptime_rfc1123 (s : String) : Option Int := do
  let (d, r1) ← strpWdDay s.toList
  let (m, y, r2) ← strpMonYear r1
  let (secs, r3) ← strpHms r2
  let _ ← strpTzEnd r3
  if daysInMonth y m < d then none else
  some (daysFromCivil y m d * 86400 + (secs : Nat))

/-! ## `parse_line` (analyze.py lines 31–39)

```python
def parse_line(line):
    r = RE_LINE.match(line)
    parts = r.groupdict()      # AttributeError when r is None!
    if r:
        return (datetime.strptime(parts['time'], ...), parts['key'], parts['message'])
```
Note that `r.groupdict()` is evaluated *before* the `if r:` guard, so a
line that fails `RE_LINE` raises `AttributeError` instead of returning
`None`; the guard on the next line is dead code. -/
def parse_line (line : String) : Except PyError (Int × String × String) :=
  match reLineMatch line.toList with
  | none => .error .attributeError
  | some (t, k, m) =>
    match strptime_rfc1123 ⟨t⟩ with
    | none => .error .valueError
    | some ts => .ok (ts, ⟨k⟩, ⟨m⟩)

/-! ## RE_USERID: `userId: (\d+), username: '(\S+)'` (searched, not anchored)

The second group `(\S+)` is greedy and `'` is itself a non-space
character, so after backtracking the captured name is the maximal
non-space run following the opening quote, truncated at the *last*
`'` inside that run (which must leave a non-empty group). -/

/-- Largest index of `'` in the list, if any. -/
def lastQuoteIdx (cs : List Char) : Option Nat :=
  match cs with
  | [] => none
  | c :: rest =>
    match lastQuoteIdx rest with
    | some j => some (j + 1)
    | none => if c = '\'' then some 0 else none

def userIdLit : List Char := "userId: ".toList

def usernameLit : List Char := ", username: '".toList

/-- Attempt the `RE_USERID` pattern anchored at the start of `cs`,
returning `(digits group, name group)`. -/
def matchUserIdAt (cs : List Char) : Option (List Char × List Char) :=
  if userIdLit.isPrefixOf cs then
    let r1 := cs.drop userIdLit.length
    let ds := r1.takeWhile isDigitC
    if ds.isEmpty then none
    else
      let r2 := r1.drop ds.length
      if usernameLit.isPrefixOf r2 then
        let run := (r2.drop usernameLit.length).takeWhile (fun c => !(pyIsSpace c))
        match lastQuoteIdx run with
        | some j => if 1 ≤ j then some (ds, run.take j) else none
        | none => none
      else none
  else none

/-- `RE_USERID.search(msg)`: leftmost match. -/
def reUserIdSearch : List Char → Option (List Char × List Char)
  | [] => none
  | c :: cs =>
    match matchUserIdAt (c :: cs) with
    | some r => some r
    | none => reUserIdSearch cs

/-! ## `handle_mmp` (analyze.py lines 41–50) -/

def handle_mmp (line : String) : Except PyError (Option String × Option String) :=
  match parse_line line with
  | .error e => .error e
  | .ok (_, key, msg) =>
    if key ≠ "laser:mmp" then .error .valueError
    else
      match reUserIdSearch msg.toList with
      | some (ds, nm) => .ok (some ⟨ds⟩, some ⟨nm⟩)
      | none => .ok (none, none)

/-! ## Dict / defaultdict models -/

/-- Python `dict` assignment `m[k] = v`: update in place, append a new
key at the end (CPython insertion order). -/
def dictUpd {κ ν : Type} [DecidableEq κ] (m : List (κ × ν)) (k : κ) (v : ν) :
    List (κ × ν) :=
  match m with
  | [] => [(k, v)]
  | (k', v') :: rest => if k' = k then (k', v) :: rest else (k', v') :: dictUpd rest k v

/-- Python `defaultdict` compound assignment `m[k] += ...`, i.e.
`m[k] = f(m[k])` where a missing key first gets the default `d`. -/
def ddUpd {ν : Type} (m : List (String × ν)) (k : String) (d : ν) (f : ν → ν) :
    List (String × ν) :=
  match m with
  | [] => [(k, f d)]
  | (k', v) :: rest => if k' = k then (k', f v) :: rest else (k', v) :: ddUpd rest k d f

/-- Read a key with a default (the value a `defaultdict` read yields). -/
def ddGet {ν : Type} (m : List (String × ν)) (k : String) (d : ν) : ν :=
  match m with
  | [] => d
  | (k', v) :: rest => if k' = k then v else ddGet rest k d

/-! ## `LaserInflux.get_avg_energy` (analyze.py lines 69–92)

The InfluxDB query itself is external; `query start end = none` models
the `StopIteration` ("No data") branch and `some m` a returned mean. -/

def get_avg_energy (query : Int → Int → Option ℚ) (start stop : Int) : ℚ :=
  let mean : ℚ :=
    match query start stop with
    | some m => m
    | none => 0
  -- Since we consider 60% on our laser to be full-scale, adjust for that
  mean / (0.6 : ℚ)

/-! ## `LaserAnalyze` state (analyze.py lines 96–111)

The `sessions` field records the argument of every `found_session` call
(the session printed on line 145): it is the model of the stream of
emitted sessions and has no other role. -/

structure AState where
  total_sessions : Nat
  last_userid : Option String
  start_time : Option Int
  cumm_time_per_userid : List (String × Int)
  cumm_energy_per_userid : List (String × ℚ)
  num_sessions : List (String × Nat)
  uid_map : List (Option String × Option String)
  sessions : List (String × Int × Int)
deriving DecidableEq, Repr

/-- `LaserAnalyze.__init__`. -/
def LaserAnalyze_init : AState :=
  ⟨0, none, none, [], [], [], [], []⟩

/-- `LaserAnalyze.found_session` (analyze.py lines 143–150). -/
def found_session (query : Int → Int → Option ℚ) (st : AState)
    (user_id : String) (start_time end_time : Int) : AState :=
  let avg_energy := get_avg_energy query start_time end_time
  { st with
    sessions := st.sessions ++ [(user_id, start_time, end_time)]
    total_sessions := st.total_sessions + 1
    cumm_time_per_userid :=
      ddUpd st.cumm_time_per_userid user_id 0 (· + (end_time - start_time))
    cumm_energy_per_userid :=
      ddUpd st.cumm_energy_per_userid user_id 0
        (· + ((end_time - start_time : Int) : ℚ) * avg_energy)
    num_sessions := ddUpd st.num_sessions user_id 0 (· + 1) }

/-- Python truthiness of `self.last_userid` (a string or `None`):
`None` and the empty string are falsy. -/
def pyTruthyStr : Option String → Bool
  | none => false
  | some s => !(s == "")

/-- The `if 'laser:mmp' in line:` block of `handle_line`
(analyze.py lines 128–130).  The assignment
`self.last_userid, name = handle_mmp(line)` is unconditional: a
`(None, None)` extraction sets `last_userid = None` and stores a
`None → None` entry in `uid_map`. -/
def mmp_step (st : AState) (line : String) : Except PyError AState :=
  if strContains line "laser:mmp" then
    match handle_mmp line with
    | .error e => .error e
    | .ok (uidO, nameO) =>
      .ok { st with last_userid := uidO, uid_map := dictUpd st.uid_map uidO nameO }
  else .ok st

/-- The `if 'laser:control' in line:` block of `handle_line`
(analyze.py lines 132–141). -/
def control_step (query : Int → Int → Option ℚ) (st : AState) (line : String) :
    Except PyError AState :=
  if strContains line "laser:control" then
    match parse_line line with
    | .error e => .error e
    | .ok (t, _, msg) =>
      if msg = "Laser started" then .ok { st with start_time := some t }
      else if msg = "Laser shutdown" then
        match st.last_userid, st.start_time with
        | some uid, some ts =>
          if uid = "" then .ok st
          else
            .ok { found_session query st uid ts t with
                  last_userid := none, start_time := none }
        | _, _ => .ok st
      else .ok st
  else .ok st

/-- `LaserAnalyze.handle_line` (analyze.py lines 127–141): the mmp block
followed by the control block, with any exception propagating. -/
def handle_line (query : Int → Int → Option ℚ) (st : AState) (line : String) :
    Except PyError AState :=
  match mmp_step st line with
  | .error e => .error e
  | .ok st1 => control_step query st1 line

/-- The per-line loop of `LaserAnalyze.ingest_logdir` over the
concatenation of all log lines, stopping at the first uncaught
exception. -/
def run_lines (query : Int → Int → Option ℚ) (st : AState) :
    List String → Except PyError AState
  | [] => .ok st
  | l :: ls =>
    match handle_line query st l with
    | .error e => .error e
    | .ok st' => run_lines query st' ls

/-! ## `print_summary` ordering (analyze.py lines 152–164)

`users = [(x[1], x[0]) for x in self.cumm_time_per_userid.items()]`
then `sorted(users, reverse=True)`: a stable sort, descending in the
Python tuple order on `(timedelta, str)`. -/

/-- Python `<` on lists of characters (string comparison by code point). -/
def chLtB : List Char → List Char → Bool
  | [], [] => false
  | [], _ :: _ => true
  | _ :: _, [] => false
  | a :: as, b :: bs => if a < b then true else if b < a then false else chLtB as bs

/-- Python `<` on the tuples `(duration, user_id)` built by
`print_summary`. -/
def tupLtB (a b : Int × String) : Bool :=
  if a.1 < b.1 then true
  else if b.1 < a.1 then false
  else chLtB a.2.toList b.2.toList

/-- Stable descending insertion (the effect of `sorted(_, reverse=True)`
on one element): `x` goes before the first element it is not less
than. -/
def insertDesc (x : Int × String) : List (Int × String) → List (Int × String)
  | [] => [x]
  | y :: ys => if tupLtB x y then y :: insertDesc x ys else x :: y :: ys

/-- `sorted(users, reverse=True)`: stable, descending in tuple order. -/
def pySortedRev : List (Int × String) → List (Int × String)
  | [] => []
  | x :: xs => insertDesc x (pySortedRev xs)

/-- The `(duration, user_id)` sequence in the order `print_summary`
emits its lines. -/
def print_summary_order (st : AState) : List (Int × String) :=
  pySortedRev (st.cumm_time_per_userid.map (fun x => (x.2, x.1)))

/-! ## Concrete log lines and states used by the witnesses and
counterexamples -/

/-- An energy query with no telemetry data for any interval. -/
def qNone : Int → Int → Option ℚ := fun _ _ => none

/-- A well-formed identity line: userId 7, username bob
(timestamp 2018-10-17 07:33:03 = epoch 1539761583). -/
def lineMmpBob : String :=
  "Wed, 17 Oct 2018 07:33:03 GMT laser:mmp New user event userId: 7, username: 'bob'"

/-- A well-formed `laser:mmp` line whose message has no id/name fields. -/
def lineMmpNoId : String :=
  "Wed, 17 Oct 2018 07:34:03 GMT laser:mmp nothing to see"

/-- `Laser started` at epoch 1539761640 (07:34:00). -/
def lineStart1 : String :=
  "Wed, 17 Oct 2018 07:34:00 GMT laser:control Laser started"

/-- `Laser started` at epoch 1539761700 (07:35:00). -/
def lineStart2 : String :=
  "Wed, 17 Oct 2018 07:35:00 GMT laser:control Laser started"

/-- `Laser shutdown` at epoch 1539762000 (07:40:00). -/
def lineShut : String :=
  "Wed, 17 Oct 2018 07:40:00 GMT laser:control Laser shutdown"

/-- `Laser shutdown` at epoch 1539761580 (07:33:00), i.e. *earlier*
than `lineStart2`. -/
def lineShutEarly : String :=
  "Wed, 17 Oct 2018 07:33:00 GMT laser:control Laser shutdown"

/-- A line that contains `laser:control` but does not match `RE_LINE`
(no ` GMT` timestamp prefix). -/
def lineNoTimestamp : String := "laser:control Laser started"

/-- Aggregate state with three users of cumulative durations
10 s, 30 s, 20 s (the sorting example of the claim). -/
def c9ExampleState : AState :=
  { LaserAnalyze_init with
    cumm_time_per_userid := [("u1", 10), ("u2", 30), ("u3", 20)] }

/-- The log lines of a complete identity/start/shutdown run. -/
def c10Lines : List String := [lineMmpBob, lineStart1, lineShut]

/-- The state `c10Lines` produces from the initial state under `qNone`
(written as the run's own result so that it is definitionally equal to
it). -/
def c10State : AState :=
  match run_lines qNone LaserAnalyze_init c10Lines with
  | .ok s => s
  | .error _ => LaserAnalyze_init

/-- `uid` is a key of at least one of the three per-user aggregates. -/
abbrev aggHasUid (st : AState) (uid : String) : Prop :=
  uid ∈ st.cumm_time_per_userid.map Prod.fst
  ∨ uid ∈ st.cumm_energy_per_userid.map Prod.fst
  ∨ uid ∈ st.num_sessions.map Prod.fst

/-- Invariant: every aggregated user id is a key of `uid_map`, and so is
the current `last_userid` whenever it is set. -/
def InvMap (st : AState) : Prop :=
  (∀ uid : String, aggHasUid st uid → (some uid) ∈ st.uid_map.map Prod.fst)
  ∧ (∀ uid : String, st.last_userid = some uid → (some uid) ∈ st.uid_map.map Prod.fst)

/-! ## Helper lemmas: defaultdict / dict models -/

theorem ddGet_ddUpd_self {ν : Type} (m : List (String × ν)) (k : String)
    (d : ν) (f : ν → ν) : ddGet (ddUpd m k d f) k d = f (ddGet m k d) := by
  induction m with
  | nil => simp [ddUpd, ddGet]
  | cons p rest ih =>
    by_cases h : p.1 = k
    · simp [ddUpd, ddGet, h]
    · simp [ddUpd, ddGet, h, ih]

theorem ddGet_ddUpd_ne {ν : Type} (m : List (String × ν)) (k u : String)
    (d e : ν) (f : ν → ν) (h : u ≠ k) :
    ddGet (ddUpd m k d f) u e = ddGet m u e := by
  induction m with
  | nil => simp [ddUpd, ddGet, Ne.symm h]
  | cons p rest ih =>
    by_cases hp : p.1 = k
    · simp [ddUpd, ddGet, hp, Ne.symm h]
    · by_cases hu : p.1 = u <;> simp [ddUpd, ddGet, hp, hu, h, ih]

theorem mem_ddUpd_keys {ν : Type} (m : List (String × ν)) (k : String)
    (d : ν) (f : ν → ν) (x : String)
    (h : x ∈ (ddUpd m k d f).map Prod.fst) :
    x = k ∨ x ∈ m.map Prod.fst := by
  induction m with
  | nil => simpa [ddUpd] using h
  | cons p rest ih =>
    by_cases hp : p.1 = k
    · simp only [ddUpd, hp, if_pos rfl] at h
      simpa [hp] using h
    · simp only [ddUpd, if_neg hp, List.map_cons, List.mem_cons] at h ⊢
      rcases h with h | h
      · exact Or.inr (Or.inl h)
      · rcases ih h with h | h
        · exact Or.inl h
        · exact Or.inr (Or.inr h)

theorem mem_dictUpd_keys_self {κ ν : Type} [DecidableEq κ]
    (m : List (κ × ν)) (k : κ) (v : ν) :
    k ∈ (dictUpd m k v).map Prod.fst := by
  induction m with
  | nil => simp [dictUpd]
  | cons p rest ih =>
    by_cases hp : p.1 = k
    · simp [dictUpd, hp]
    · simp only [dictUpd, if_neg hp, List.map_cons, List.mem_cons]
      exact Or.inr ih

theorem mem_dictUpd_keys_mono {κ ν : Type} [DecidableEq κ]
    (m : List (κ × ν)) (k : κ) (v : ν) (x : κ)
    (h : x ∈ m.map Prod.fst) : x ∈ (dictUpd m k v).map Prod.fst := by
  induction m with
  | nil => simp at h
  | cons p rest ih =>
    by_cases hp : p.1 = k
    · simpa [dictUpd, hp] using h
    · simp only [List.map_cons, List.mem_cons] at h
      simp only [dictUpd, if_neg hp, List.map_cons, List.mem_cons]
      rcases h with h | h
      · exact Or.inl h
      · exact Or.inr (ih h)

/-! ## Helper lemmas: a successfully extracted user id is a non-empty
digit string (hence Python-truthy) -/

theorem matchUserIdAt_ds_ne_nil (cs ds nm : List Char)
    (h : matchUserIdAt cs = some (ds, nm)) : ds ≠ [] := by
  simp only [matchUserIdAt] at h
  split at h
  · split at h
    · simp at h
    · next hne =>
      split at h
      · split at h
        · split at h
          · rw [Option.some_inj, Prod.mk.injEq] at h
            obtain ⟨h1, _⟩ := h
            subst h1
            simpa using hne
          · simp at h
        · simp at h
      · simp at h
  · simp at h

theorem reUserIdSearch_ds_ne_nil (cs ds nm : List Char)
    (h : reUserIdSearch cs = some (ds, nm)) : ds ≠ [] := by
  induction cs with
  | nil => simp [reUserIdSearch] at h
  | cons c rest ih =>
    rw [reUserIdSearch] at h
    cases hm : matchUserIdAt (c :: rest) with
    | some r =>
      simp only [hm] at h
      rw [Option.some_inj] at h
      subst h
      exact matchUserIdAt_ds_ne_nil _ _ _ hm
    | none =>
      simp only [hm] at h
      exact ih h

theorem handle_mmp_uid_ne_empty (l : String) (uid : String) (nmO : Option String)
    (h : handle_mmp l = .ok (some uid, nmO)) : uid ≠ "" := by
  unfold handle_mmp at h
  cases hp : parse_line l with
  | error e => simp [hp] at h
  | ok v =>
    obtain ⟨t, key, msg⟩ := v
    simp only [hp] at h
    by_cases hk : key = "laser:mmp"
    · simp only [hk, ne_eq, not_true_eq_false, if_false] at h
      cases hs : reUserIdSearch msg.toList with
      | some r =>
        obtain ⟨ds, nm⟩ := r
        rw [hs] at h
        have hds := reUserIdSearch_ds_ne_nil _ _ _ hs
        simp only [Except.ok.injEq, Prod.mk.injEq, Option.some.injEq] at h
        obtain ⟨h1, _⟩ := h
        intro hc
        apply hds
        have : (⟨ds⟩ : String).data = ("" : String).data := by rw [h1, hc]
        simpa using this
      | none =>
        rw [hs] at h
        simp at h
    · simp [hk] at h

/-! ## Helper lemmas: the aggregate-keys-in-uid-map invariant is
preserved by every step -/

theorem InvMap_init : InvMap LaserAnalyze_init := by
  constructor
  · intro uid ha
    rcases ha with h | h | h <;> simp [LaserAnalyze_init] at h
  · intro uid h
    simp [LaserAnalyze_init] at h

theorem mmp_step_inv (st st' : AState) (l : String)
    (hinv : InvMap st) (h : mmp_step st l = .ok st') : InvMap st' := by
  unfold mmp_step at h
  by_cases hc : strContains l "laser:mmp"
  · rw [if_pos hc] at h
    cases hm : handle_mmp l with
    | error e => rw [hm] at h; simp at h
    | ok r =>
      obtain ⟨uidO, nameO⟩ := r
      rw [hm] at h
      injection h with h'
      subst h'
      constructor
      · intro uid ha
        have ha' : aggHasUid st uid := ha
        exact mem_dictUpd_keys_mono _ _ _ _ (hinv.1 uid ha')
      · intro uid hl
        have hl' : uidO = some uid := hl
        rw [← hl']
        exact mem_dictUpd_keys_self st.uid_map uidO nameO
  · rw [if_neg hc] at h
    injection h with h'
    subst h'
    exact hinv

theorem control_step_inv (q : Int → Int → Option ℚ) (st st' : AState)
    (l : String) (hinv : InvMap st) (h : control_step q st l = .ok st') :
    InvMap st' := by
  unfold control_step at h
  by_cases hc : strContains l "laser:control"
  · rw [if_pos hc] at h
    cases hp : parse_line l with
    | error e => rw [hp] at h; simp at h
    | ok v =>
      obtain ⟨t, k, msg⟩ := v
      simp only [hp] at h
      by_cases h1 : msg = "Laser started"
      · rw [if_pos h1] at h
        injection h with h'
        subst h'
        exact ⟨hinv.1, hinv.2⟩
      · rw [if_neg h1] at h
        by_cases h2 : msg = "Laser shutdown"
        · rw [if_pos h2] at h
          cases hu : st.last_userid with
          | none =>
            cases hts : st.start_time with
            | none =>
              simp only [hu, hts] at h
              injection h with h'
              subst h'
              exact hinv
            | some ts =>
              simp only [hu, hts] at h
              injection h with h'
              subst h'
              exact hinv
          | some uid =>
            cases hts : st.start_time with
            | none =>
              simp only [hu, hts] at h
              injection h with h'
              subst h'
              exact hinv
            | some ts =>
              simp only [hu, hts] at h
              by_cases he : uid = ""
              · rw [if_pos he] at h
                injection h with h'
                subst h'
                exact hinv
              · rw [if_neg he] at h
                injection h with h'
                subst h'
                constructor
                · intro u ha
                  rcases ha with ha | ha | ha
                  · rcases mem_ddUpd_keys _ _ _ _ _ ha with rfl | hmem
                    · exact hinv.2 u hu
                    · exact hinv.1 u (Or.inl hmem)
                  · rcases mem_ddUpd_keys _ _ _ _ _ ha with rfl | hmem
                    · exact hinv.2 u hu
                    · exact hinv.1 u (Or.inr (Or.inl hmem))
                  · rcases mem_ddUpd_keys _ _ _ _ _ ha with rfl | hmem
                    · exact hinv.2 u hu
                    · exact hinv.1 u (Or.inr (Or.inr hmem))
                · intro u hlu
                  exact absurd hlu (by simp [found_session])
        · rw [if_neg h2] at h
          injection h with h'
          subst h'
          exact hinv
  · rw [if_neg hc] at h
    injection h with h'
    subst h'
    exact hinv

theorem handle_line_inv (q : Int → Int → Option ℚ) (st st' : AState)
    (l : String) (hinv : InvMap st) (h : handle_line q st l = .ok st') :
    InvMap st' := by
  unfold handle_line at h
  cases hm : mmp_step st l with
  | error e => rw [hm] at h; simp at h
  | ok st1 =>
    rw [hm] at h
    exact control_step_inv q st1 st' l (mmp_step_inv st st1 l hinv hm) h

theorem run_lines_inv (q : Int → Int → Option ℚ) (ls : List String)
    (st st' : AState) (hinv : InvMap st) (h : run_lines q st ls = .ok st') :
    InvMap st' := by
  induction ls generalizing st with
  | nil =>
    rw [run_lines] at h
    injection h with h'
    subst h'
    exact hinv
  | cons l rest ih =>
    rw [run_lines] at h
    cases hl : handle_line q st l with
    | error e => rw [hl] at h; simp at h
    | ok st1 =>
      rw [hl] at h
      exact ih st1 (handle_line_inv q st st1 l hinv hl) h

/-! ## Helper lemmas: `sorted(users, reverse=True)` is a permutation and
descending in the tuple order -/

theorem chLtB_asymm (a b : List Char) (h : chLtB a b = true) :
    chLtB b a = false := by
  induction a generalizing b with
  | nil =>
    cases b with
    | nil => simp [chLtB] at h
    | cons y ys => simp [chLtB]
  | cons x xs ih =>
    cases b with
    | nil => simp [chLtB] at h
    | cons y ys =>
      by_cases h1 : x < y
      · have h2 : ¬ y < x := lt_asymm h1
        simp [chLtB, h1, h2]
      · by_cases h2 : y < x
        · simp [chLtB, h1, h2] at h
        · simp [chLtB, h1, h2] at h ⊢
          exact ih ys h

theorem tupLtB_asymm (a b : Int × String) (h : tupLtB a b = true) :
    tupLtB b a = false := by
  unfold tupLtB at h ⊢
  by_cases h1 : a.1 < b.1
  · have h2 : ¬ b.1 < a.1 := lt_asymm h1
    simp [h1, h2]
  · by_cases h2 : b.1 < a.1
    · simp [h1, h2] at h
    · simp [h1, h2] at h ⊢
      exact chLtB_asymm _ _ h

theorem insertDesc_perm (x : Int × String) (l : List (Int × String)) :
    (insertDesc x l).Perm (x :: l) := by
  induction l with
  | nil => exact List.Perm.refl _
  | cons y ys ih =>
    unfold insertDesc
    by_cases h : tupLtB x y
    · rw [if_pos h]
      exact (ih.cons y).trans (List.Perm.swap x y ys)
    · rw [if_neg h]

theorem pySortedRev_perm (l : List (Int × String)) :
    (pySortedRev l).Perm l := by
  induction l with
  | nil => exact List.Perm.refl _
  | cons x xs ih =>
    exact (insertDesc_perm x (pySortedRev xs)).trans (ih.cons x)

theorem insertDesc_head_cases (x : Int × String) (l : List (Int × String)) :
    (insertDesc x l).head? = some x ∨ (insertDesc x l).head? = l.head? := by
  cases l with
  | nil => exact Or.inl rfl
  | cons y ys =>
    unfold insertDesc
    by_cases h : tupLtB x y
    · rw [if_pos h]; exact Or.inr rfl
    · rw [if_neg h]; exact Or.inl rfl

theorem insertDesc_chain (x : Int × String) (l : List (Int × String))
    (h : List.Chain' (fun a b => tupLtB a b = false) l) :
    List.Chain' (fun a b => tupLtB a b = false) (insertDesc x l) := by
  induction l with
  | nil => simp [insertDesc]
  | cons y ys ih =>
    unfold insertDesc
    by_cases hxy : tupLtB x y
    · rw [if_pos hxy]
      rw [List.chain'_cons'] at h ⊢
      refine ⟨?_, ih h.2⟩
      intro z hz
      rcases insertDesc_head_cases x ys with hh | hh
      · rw [hh] at hz
        cases hz
        exact tupLtB_asymm _ _ hxy
      · rw [hh] at hz
        exact h.1 z hz
    · rw [if_neg hxy]
      rw [List.chain'_cons']
      refine ⟨?_, h⟩
      intro z hz
      cases hz
      exact Bool.not_eq_true _ ▸ eq_false_of_ne_true hxy

theorem pySortedRev_chain (l : List (Int × String)) :
    List.Chain' (fun a b => tupLtB a b = false) (pySortedRev l) := by
  induction l with
  | nil => simp [pySortedRev]
  | cons x xs ih => exact insertDesc_chain x (pySortedRev xs) ih

/-! ## Helper lemmas: the four kinds of `handle_line` step -/

theorem handle_line_mmp_only (q : Int → Int → Option ℚ) (st : AState)
    (l : String) (uidO nameO : Option String)
    (h1 : strContains l "laser:mmp" = true)
    (h2 : strContains l "laser:control" = false)
    (h3 : handle_mmp l = .ok (uidO, nameO)) :
    handle_line q st l =
      .ok { st with last_userid := uidO, uid_map := dictUpd st.uid_map uidO nameO } := by
  simp [handle_line, mmp_step, control_step, h1, h2, h3]

theorem handle_line_start (q : Int → Int → Option ℚ) (st : AState)
    (l : String) (t : Int) (k : String)
    (h1 : strContains l "laser:control" = true)
    (h2 : strContains l "laser:mmp" = false)
    (h3 : parse_line l = .ok (t, k, "Laser started")) :
    handle_line q st l = .ok { st with start_time := some t } := by
  simp [handle_line, mmp_step, control_step, h1, h2, h3]

theorem handle_line_shutdown_emit (q : Int → Int → Option ℚ) (st : AState)
    (l : String) (t : Int) (k uid : String) (ts : Int)
    (h1 : strContains l "laser:control" = true)
    (h2 : strContains l "laser:mmp" = false)
    (h3 : parse_line l = .ok (t, k, "Laser shutdown"))
    (hu : st.last_userid = some uid) (hne : uid ≠ "")
    (hts : st.start_time = some ts) :
    handle_line q st l =
      .ok { found_session q st uid ts t with last_userid := none, start_time := none } := by
  simp [handle_line, mmp_step, control_step, h1, h2, h3, hu, hts, hne]

theorem handle_line_shutdown_noop (q : Int → Int → Option ℚ) (st : AState)
    (l : String) (t : Int) (k : String)
    (h1 : strContains l "laser:control" = true)
    (h2 : strContains l "laser:mmp" = false)
    (h3 : parse_line l = .ok (t, k, "Laser shutdown"))
    (hor : st.last_userid = none ∨ st.start_time = none) :
    handle_line q st l = .ok st := by
  rcases hor with hu | hts
  · simp [handle_line, mmp_step, control_step, h1, h2, h3, hu]
  · cases hu : st.last_userid with
    | none => simp [handle_line, mmp_step, control_step, h1, h2, h3, hu]
    | some uid => simp [handle_line, mmp_step, control_step, h1, h2, h3, hu, hts]

/-! ## The claims -/

/-- Claim C1 (code bug in `parse_line`): the claim states that
`handle_line` applied to any line failing `RE_LINE` completes without
an exception and produces no event.  In the code, `parse_line` calls
`r.groupdict()` *before* the `if r:` guard, so a non-matching line that
reaches `parse_line` (any line containing `laser:control` or
`laser:mmp`) raises `AttributeError` and aborts the scan: here
`lineNoTimestamp` (`"laser:control Laser started"`, which has no
`" GMT"` timestamp and therefore fails `RE_LINE`) makes both
`parse_line` and `handle_line` raise. -/
theorem parse_crash_c1 :
    parse_line lineNoTimestamp = .error .attributeError
    ∧ handle_line qNone LaserAnalyze_init lineNoTimestamp = .error .attributeError := by
  decide

/-- Claim C2, counterexample: processing an identity-channel event whose
message has no id/name fields does *not* leave `last_userid` and
`uid_map` unchanged.  After `lineMmpBob`, `last_userid = some "7"`;
processing `lineMmpNoId` (whose extraction is `(None, None)`) resets
`last_userid` to `None` and inserts a `None → None` entry into
`uid_map`. -/
theorem mmp_none_overwrites_c2_cex :
    handle_mmp lineMmpNoId = .ok (none, none)
    ∧ (run_lines qNone LaserAnalyze_init [lineMmpBob]).map
        (fun s => (s.last_userid, s.uid_map)) = .ok (some "7", [(some "7", some "bob")])
    ∧ (run_lines qNone LaserAnalyze_init [lineMmpBob, lineMmpNoId]).map
        (fun s => (s.last_userid, s.uid_map))
        = .ok (none, [(some "7", some "bob"), (none, none)]) := by
  decide

/-- Claim C2 (corrected): for every identity-channel (`laser:mmp`) line,
the state machine *unconditionally* assigns the extractor's result:
`last_userid` becomes the extracted id (`None` when the fields are
absent) and the `uid_map` entry for that id — including a `None` key —
is upserted.  `last_userid` holds a valid id only when the extractor
yields one; a `(None, None)` extraction clears any pending identity
instead of leaving the state unchanged. -/
theorem mmp_unconditional_assign_c2 (q : Int → Int → Option ℚ) (st : AState)
    (l : String) (uidO nameO : Option String)
    (h1 : strContains l "laser:mmp" = true)
    (h2 : strContains l "laser:control" = false)
    (h3 : handle_mmp l = .ok (uidO, nameO)) :
    handle_line q st l =
      .ok { st with last_userid := uidO, uid_map := dictUpd st.uid_map uidO nameO } :=
  handle_line_mmp_only q st l uidO nameO h1 h2 h3

/-- Witness for C2: the `(None, None)` extraction of `lineMmpNoId`
applied to the initial state. -/
theorem mmp_unconditional_assign_c2_witness :
    handle_line qNone LaserAnalyze_init lineMmpNoId =
      .ok { LaserAnalyze_init with
            last_userid := none
            uid_map := dictUpd LaserAnalyze_init.uid_map none none } :=
  mmp_unconditional_assign_c2 qNone LaserAnalyze_init lineMmpNoId none none
    (by decide) (by decide) (by decide)

/-- Claim C5 (confirmed): a `Laser shutdown` event reaching a state in
which `last_userid` or `start_time` is unset emits no session and
leaves the whole state exactly unchanged (`handle_line` returns the
input state itself, every component included). -/
theorem shutdown_noop_c5 (q : Int → Int → Option ℚ) (st : AState)
    (l : String) (t : Int) (k : String)
    (h1 : strContains l "laser:control" = true)
    (h2 : strContains l "laser:mmp" = false)
    (h3 : parse_line l = .ok (t, k, "Laser shutdown"))
    (hor : st.last_userid = none ∨ st.start_time = none) :
    handle_line q st l = .ok st :=
  handle_line_shutdown_noop q st l t k h1 h2 h3 hor

/-- Witness for C5: the concrete shutdown line applied to the initial
state (both slots unset). -/
theorem shutdown_noop_c5_witness :
    handle_line qNone LaserAnalyze_init lineShut = .ok LaserAnalyze_init :=
  shutdown_noop_c5 qNone LaserAnalyze_init lineShut 1539762000 "laser:control"
    (by decide) (by decide) (by decide) (Or.inl rfl)

/-- Unfolding one successful step of the per-line loop. -/
theorem run_lines_cons_ok (q : Int → Int → Option ℚ) (st st' : AState)
    (l : String) (ls : List String) (h : handle_line q st l = .ok st') :
    run_lines q st (l :: ls) = run_lines q st' ls := by
  rw [run_lines, h]

/-- Claim C3 (confirmed): from any state, an identity event with a valid
id followed by two consecutive `Laser started` events and one
`Laser shutdown` emits exactly one session, whose start time is the
*second* start's timestamp (the pending start slot holds one value and
a new start overwrites it), and afterwards both slots are cleared. -/
theorem double_start_one_session_c3 (q : Int → Int → Option ℚ) (st : AState)
    (l0 l1 l2 l3 : String) (uid : String) (nmO : Option String)
    (t1 t2 t3 : Int) (k1 k2 k3 : String)
    (h0a : strContains l0 "laser:mmp" = true)
    (h0b : strContains l0 "laser:control" = false)
    (h0c : handle_mmp l0 = .ok (some uid, nmO))
    (h1a : strContains l1 "laser:control" = true)
    (h1b : strContains l1 "laser:mmp" = false)
    (h1c : parse_line l1 = .ok (t1, k1, "Laser started"))
    (h2a : strContains l2 "laser:control" = true)
    (h2b : strContains l2 "laser:mmp" = false)
    (h2c : parse_line l2 = .ok (t2, k2, "Laser started"))
    (h3a : strContains l3 "laser:control" = true)
    (h3b : strContains l3 "laser:mmp" = false)
    (h3c : parse_line l3 = .ok (t3, k3, "Laser shutdown")) :
    (run_lines q st [l0, l1, l2, l3]).map
        (fun s => (s.sessions, s.total_sessions, s.last_userid, s.start_time))
      = .ok (st.sessions ++ [(uid, t2, t3)], st.total_sessions + 1, none, none) := by
  have hne : uid ≠ "" := handle_mmp_uid_ne_empty l0 uid nmO h0c
  rw [run_lines_cons_ok q st _ l0 _ (handle_line_mmp_only q st l0 (some uid) nmO h0a h0b h0c)]
  rw [run_lines_cons_ok q _ _ l1 _ (handle_line_start q _ l1 t1 k1 h1a h1b h1c)]
  rw [run_lines_cons_ok q _ _ l2 _ (handle_line_start q _ l2 t2 k2 h2a h2b h2c)]
  rw [run_lines_cons_ok q _ _ l3 _ (handle_line_shutdown_emit q _ l3 t3 k3 uid t2
    h3a h3b h3c rfl hne rfl)]
  rw [run_lines]
  simp [Except.map, found_session]

/-- Witness for C3: identity(7)/started/started/shutdown from the
initial state; the emitted session uses the second start time
1539761700, not 1539761640. -/
theorem double_start_one_session_c3_witness :
    (run_lines qNone LaserAnalyze_init [lineMmpBob, lineStart1, lineStart2, lineShut]).map
        (fun s => (s.sessions, s.total_sessions, s.last_userid, s.start_time))
      = .ok (LaserAnalyze_init.sessions ++ [("7", 1539761700, 1539762000)],
             LaserAnalyze_init.total_sessions + 1, none, none) :=
  double_start_one_session_c3 qNone LaserAnalyze_init
    lineMmpBob lineStart1 lineStart2 lineShut "7" (some "bob")
    1539761640 1539761700 1539762000 "laser:control" "laser:control" "laser:control"
    (by decide) (by decide) (by decide) (by decide) (by decide) (by decide)
    (by decide) (by decide) (by decide) (by decide) (by decide) (by decide)

/-- Claim C4, counterexample: after a `Laser started` with no prior
identity followed by `Laser shutdown`, no session is emitted and
`last_userid` is unset — but the state is *not* clean:
`start_time` still holds the orphaned start's timestamp
(`isSome = true`), because the discarded shutdown clears nothing. -/
theorem orphan_pair_state_c4_cex :
    (run_lines qNone LaserAnalyze_init [lineStart1, lineShut]).map
        (fun s => (s.sessions, s.total_sessions, s.last_userid, s.start_time.isSome))
      = .ok ([], 0, none, true) := by
  decide

/-- Claim C4 (corrected): a `Laser started` with no prior identity
event followed by `Laser shutdown` produces no session, and afterwards
`last_userid` is still unset but `start_time` retains the orphaned
start's timestamp (the machine state is *not* fully clean).  A
subsequent identity/start/shutdown triple nevertheless produces exactly
one correct session, because the new start overwrites the stale pending
start time. -/
theorem orphan_pair_then_valid_c4 (q : Int → Int → Option ℚ)
    (l1 l2 l3 l4 l5 : String) (t1 t2 : Int) (k1 k2 : String)
    (uid : String) (nmO : Option String) (t3 t4 : Int) (k4 k5 : String)
    (h1a : strContains l1 "laser:control" = true)
    (h1b : strContains l1 "laser:mmp" = false)
    (h1c : parse_line l1 = .ok (t1, k1, "Laser started"))
    (h2a : strContains l2 "laser:control" = true)
    (h2b : strContains l2 "laser:mmp" = false)
    (h2c : parse_line l2 = .ok (t2, k2, "Laser shutdown"))
    (h3a : strContains l3 "laser:mmp" = true)
    (h3b : strContains l3 "laser:control" = false)
    (h3c : handle_mmp l3 = .ok (some uid, nmO))
    (h4a : strContains l4 "laser:control" = true)
    (h4b : strContains l4 "laser:mmp" = false)
    (h4c : parse_line l4 = .ok (t3, k4, "Laser started"))
    (h5a : strContains l5 "laser:control" = true)
    (h5b : strContains l5 "laser:mmp" = false)
    (h5c : parse_line l5 = .ok (t4, k5, "Laser shutdown")) :
    run_lines q LaserAnalyze_init [l1, l2]
      = .ok { LaserAnalyze_init with start_time := some t1 }
    ∧ (run_lines q LaserAnalyze_init [l1, l2, l3, l4, l5]).map
        (fun s => (s.sessions, s.total_sessions, s.last_userid, s.start_time))
      = .ok ([(uid, t3, t4)], 1, none, none) := by
  have hne : uid ≠ "" := handle_mmp_uid_ne_empty l3 uid nmO h3c
  constructor
  · rw [run_lines_cons_ok q _ _ l1 _
      (handle_line_start q LaserAnalyze_init l1 t1 k1 h1a h1b h1c)]
    rw [run_lines_cons_ok q _ _ l2 _
      (handle_line_shutdown_noop q _ l2 t2 k2 h2a h2b h2c (Or.inl rfl))]
    rw [run_lines]
  · rw [run_lines_cons_ok q _ _ l1 _
      (handle_line_start q LaserAnalyze_init l1 t1 k1 h1a h1b h1c)]
    rw [run_lines_cons_ok q _ _ l2 _
      (handle_line_shutdown_noop q _ l2 t2 k2 h2a h2b h2c (Or.inl rfl))]
    rw [run_lines_cons_ok q _ _ l3 _
      (handle_line_mmp_only q _ l3 (some uid) nmO h3a h3b h3c)]
    rw [run_lines_cons_ok q _ _ l4 _ (handle_line_start q _ l4 t3 k4 h4a h4b h4c)]
    rw [run_lines_cons_ok q _ _ l5 _ (handle_line_shutdown_emit q _ l5 t4 k5 uid t3
      h5a h5b h5c rfl hne rfl)]
    rw [run_lines]
    simp [Except.map, found_session, LaserAnalyze_init]

/-- Witness for C4: the five concrete lines
started/shutdown/identity/started/shutdown from the initial state. -/
theorem orphan_pair_then_valid_c4_witness :
    run_lines qNone LaserAnalyze_init [lineStart1, lineShut]
      = .ok { LaserAnalyze_init with start_time := some 1539761640 }
    ∧ (run_lines qNone LaserAnalyze_init
        [lineStart1, lineShut, lineMmpBob, lineStart2, lineShut]).map
        (fun s => (s.sessions, s.total_sessions, s.last_userid, s.start_time))
      = .ok ([("7", 1539761700, 1539762000)], 1, none, none) :=
  orphan_pair_then_valid_c4 qNone lineStart1 lineShut lineMmpBob lineStart2 lineShut
    1539761640 1539762000 "laser:control" "laser:control" "7" (some "bob")
    1539761700 1539762000 "laser:control" "laser:control"
    (by decide) (by decide) (by decide) (by decide) (by decide) (by decide)
    (by decide) (by decide) (by decide) (by decide) (by decide) (by decide)
    (by decide) (by decide) (by decide)

/-- Claim C6 (confirmed): recording a session with `ts < te` adds
exactly `te - ts` to the user's cumulative duration, exactly 1 to the
user's session count, and exactly `(te - ts) * avgEnergy` to the user's
energy-weighted duration; every other user's aggregates are
unchanged. -/
theorem record_session_aggregates_c6 (q : Int → Int → Option ℚ)
    (st : AState) (uid : String) (ts te : Int) (h : ts < te) :
    ddGet (found_session q st uid ts te).cumm_time_per_userid uid 0
      = ddGet st.cumm_time_per_userid uid 0 + (te - ts)
    ∧ ddGet (found_session q st uid ts te).num_sessions uid 0
      = ddGet st.num_sessions uid 0 + 1
    ∧ ddGet (found_session q st uid ts te).cumm_energy_per_userid uid 0
      = ddGet st.cumm_energy_per_userid uid 0
        + ((te - ts : Int) : ℚ) * get_avg_energy q ts te
    ∧ ∀ u : String, u ≠ uid →
        ddGet (found_session q st uid ts te).cumm_time_per_userid u 0
          = ddGet st.cumm_time_per_userid u 0
        ∧ ddGet (found_session q st uid ts te).cumm_energy_per_userid u 0
          = ddGet st.cumm_energy_per_userid u 0
        ∧ ddGet (found_session q st uid ts te).num_sessions u 0
          = ddGet st.num_sessions u 0 := by
  refine ⟨?_, ?_, ?_, ?_⟩
  · simp [found_session, ddGet_ddUpd_self]
  · simp [found_session, ddGet_ddUpd_self]
  · simp [found_session, ddGet_ddUpd_self]
  · intro u hu
    refine ⟨?_, ?_, ?_⟩ <;>
      simp [found_session, ddGet_ddUpd_ne _ _ u _ _ _ hu]

/-- Witness for C6: a 300-second session for user 7 from the initial
state, with the other-user part instantiated at user 8. -/
theorem record_session_aggregates_c6_witness :
    (ddGet (found_session qNone LaserAnalyze_init "7" 0 300).cumm_time_per_userid "7" 0
        = ddGet LaserAnalyze_init.cumm_time_per_userid "7" 0 + (300 - 0)
      ∧ ddGet (found_session qNone LaserAnalyze_init "7" 0 300).num_sessions "7" 0
        = ddGet LaserAnalyze_init.num_sessions "7" 0 + 1
      ∧ ddGet (found_session qNone LaserAnalyze_init "7" 0 300).cumm_energy_per_userid "7" 0
        = ddGet LaserAnalyze_init.cumm_energy_per_userid "7" 0
          + ((300 - 0 : Int) : ℚ) * get_avg_energy qNone 0 300)
    ∧ (ddGet (found_session qNone LaserAnalyze_init "7" 0 300).cumm_time_per_userid "8" 0
        = ddGet LaserAnalyze_init.cumm_time_per_userid "8" 0
      ∧ ddGet (found_session qNone LaserAnalyze_init "7" 0 300).cumm_energy_per_userid "8" 0
        = ddGet LaserAnalyze_init.cumm_energy_per_userid "8" 0
      ∧ ddGet (found_session qNone LaserAnalyze_init "7" 0 300).num_sessions "8" 0
        = ddGet LaserAnalyze_init.num_sessions "8" 0) := by
  have h := record_session_aggregates_c6 qNone LaserAnalyze_init "7" 0 300 (by decide)
  exact ⟨⟨h.1, h.2.1, h.2.2.1⟩, h.2.2.2 "8" (by decide)⟩

/-- Claim C7 (confirmed): the energy query always returns the raw
telemetry mean divided by the fixed normalization constant 0.6, and on
a "no data" response the returned energy is exactly zero, so recording
the session still adds its full duration to the user's cumulative time
while leaving the user's energy-weighted total unchanged. -/
theorem energy_default_zero_c7 (q : Int → Int → Option ℚ) (ts te : Int)
    (st : AState) (uid : String) (h : q ts te = none) :
    (∀ q2 : Int → Int → Option ℚ, ∀ s e : Int,
        get_avg_energy q2 s e = (q2 s e).getD 0 / (0.6 : ℚ))
    ∧ get_avg_energy q ts te = 0
    ∧ ddGet (found_session q st uid ts te).cumm_time_per_userid uid 0
        = ddGet st.cumm_time_per_userid uid 0 + (te - ts)
    ∧ ddGet (found_session q st uid ts te).cumm_energy_per_userid uid 0
        = ddGet st.cumm_energy_per_userid uid 0 := by
  have hg : ∀ q2 : Int → Int → Option ℚ, ∀ s e : Int,
      get_avg_energy q2 s e = (q2 s e).getD 0 / (0.6 : ℚ) := by
    intro q2 s e
    unfold get_avg_energy
    cases hq : q2 s e <;> simp [hq]
  have h0 : get_avg_energy q ts te = 0 := by
    rw [hg q ts te, h]
    simp
  refine ⟨hg, h0, ?_, ?_⟩
  · simp [found_session, ddGet_ddUpd_self]
  · simp [found_session, ddGet_ddUpd_self, h0]

/-- Witness for C7: the no-data query `qNone` over `[0, 300]` for user 7
from the initial state, with the general normalization formula
instantiated at the same query and interval. -/
theorem energy_default_zero_c7_witness :
    (get_avg_energy qNone 0 300 = (qNone 0 300).getD 0 / (0.6 : ℚ))
    ∧ get_avg_energy qNone 0 300 = 0
    ∧ ddGet (found_session qNone LaserAnalyze_init "7" 0 300).cumm_time_per_userid "7" 0
        = ddGet LaserAnalyze_init.cumm_time_per_userid "7" 0 + (300 - 0)
    ∧ ddGet (found_session qNone LaserAnalyze_init "7" 0 300).cumm_energy_per_userid "7" 0
        = ddGet LaserAnalyze_init.cumm_energy_per_userid "7" 0 := by
  have h := energy_default_zero_c7 qNone 0 300 LaserAnalyze_init "7" rfl
  exact ⟨h.1 qNone 0 300, h.2.1, h.2.2.1, h.2.2.2⟩

/-- Claim C8, counterexample: a pairing whose shutdown timestamp
precedes the pending start (start 1539761700, shutdown 1539761580) is
*not* treated as a data-integrity error: the session is emitted and the
negative duration −120 is silently added to user 7's cumulative total,
with no error raised. -/
theorem negative_duration_aggregated_c8_cex :
    (run_lines qNone LaserAnalyze_init [lineMmpBob, lineStart2, lineShutEarly]).map
        (fun s => (s.sessions, s.cumm_time_per_userid, s.num_sessions))
      = .ok ([("7", 1539761700, 1539761580)], [("7", -120)], [("7", 1)]) := by
  decide

/-- Claim C8 (corrected): an emitted session's duration may be
negative; `found_session` performs no sign check and silently adds the
(possibly negative) `te - ts` to the user's cumulative duration —
strictly decreasing it — while still counting the session, raising no
error. -/
theorem negative_duration_silent_c8 (q : Int → Int → Option ℚ)
    (st : AState) (uid : String) (ts te : Int) (h : te - ts < 0) :
    (found_session q st uid ts te).sessions = st.sessions ++ [(uid, ts, te)]
    ∧ ddGet (found_session q st uid ts te).cumm_time_per_userid uid 0
        = ddGet st.cumm_time_per_userid uid 0 + (te - ts)
    ∧ ddGet st.cumm_time_per_userid uid 0 + (te - ts)
        < ddGet st.cumm_time_per_userid uid 0
    ∧ ddGet (found_session q st uid ts te).num_sessions uid 0
        = ddGet st.num_sessions uid 0 + 1 := by
  refine ⟨by simp [found_session], by simp [found_session, ddGet_ddUpd_self],
    by omega, by simp [found_session, ddGet_ddUpd_self]⟩

/-- Witness for C8: start 300, shutdown 0, from the initial state. -/
theorem negative_duration_silent_c8_witness :
    (found_session qNone LaserAnalyze_init "7" 300 0).sessions
        = LaserAnalyze_init.sessions ++ [("7", 300, 0)]
    ∧ ddGet (found_session qNone LaserAnalyze_init "7" 300 0).cumm_time_per_userid "7" 0
        = ddGet LaserAnalyze_init.cumm_time_per_userid "7" 0 + (0 - 300)
    ∧ ddGet LaserAnalyze_init.cumm_time_per_userid "7" 0 + (0 - 300)
        < ddGet LaserAnalyze_init.cumm_time_per_userid "7" 0
    ∧ ddGet (found_session qNone LaserAnalyze_init "7" 300 0).num_sessions "7" 0
        = ddGet LaserAnalyze_init.num_sessions "7" 0 + 1 :=
  negative_duration_silent_c8 qNone LaserAnalyze_init "7" 300 0 (by decide)

/-- Claim C9 (confirmed): for every aggregate state the summary order is
a permutation of the users and every adjacent pair is non-ascending in
the Python tuple order on `(duration, userId)` — i.e. descending
duration with ties broken by descending user-id string comparison —
and on the concrete durations 10 s/30 s/20 s the reporter emits
30 s, 20 s, 10 s. -/
theorem summary_sorted_c9 :
    (∀ st : AState,
        (print_summary_order st).Perm
          (st.cumm_time_per_userid.map (fun x => (x.2, x.1)))
        ∧ List.Chain' (fun a b => tupLtB a b = false) (print_summary_order st))
    ∧ (print_summary_order c9ExampleState).map Prod.fst = [30, 20, 10] := by
  exact ⟨fun st => ⟨pySortedRev_perm _, pySortedRev_chain _⟩, by decide⟩

/-- Claim C10 (confirmed): in every state reachable by `handle_line`
steps from the initial state, every user id that is a key of any of the
three per-user aggregates is also a key of `uid_map`, so
`print_summary`'s name lookup `uid_map[user_id]` cannot fail for an
aggregated user. -/
theorem agg_keys_in_uidmap_c10 (q : Int → Int → Option ℚ)
    (ls : List String) (st : AState)
    (h : run_lines q LaserAnalyze_init ls = .ok st) (uid : String)
    (ha : aggHasUid st uid) : (some uid) ∈ st.uid_map.map Prod.fst :=
  (run_lines_inv q ls LaserAnalyze_init st InvMap_init h).1 uid ha

/-- Witness for C10: after the identity/start/shutdown run `c10Lines`,
user 7 is aggregated and its id is a key of `uid_map`. -/
theorem agg_keys_in_uidmap_c10_witness :
    (some "7") ∈ c10State.uid_map.map Prod.fst :=
  agg_keys_in_uidmap_c10 qNone c10Lines c10State rfl "7" (Or.inl (by decide))
